import Mathlib

/-!
Verification of the pydpf-core client layer: a shallow embedding of the
hand-written convenience modules (`results.py`, `model.py`,
`fields_factory.py`, `mesh_scoping_factory.py`) together with theorems
settling the specification's claims about them.

Python exceptions are modelled with `Except`; Python truthiness tests
(`if x:`) are modelled by an explicit `truthy` function on a closed value
type; remote objects (data sources, stream providers, result info) are
modelled by records tracking which data source they were derived from.
-/

namespace Dpf

/-- Errors raised by the client layer.  `typeError` / `valueError` mirror
Python's builtin `TypeError` / `ValueError`; `invalidTypeError` mirrors
`ansys.dpf.core.errors.InvalidTypeError` (a type error carrying the expected
type and the argument name); `inactiveRpcError` mirrors
`grpc._channel._InactiveRpcError` with its `details()` diagnostic string;
`runtimeError` mirrors Python's `RuntimeError`. -/
inductive PyError where
  | typeError (msg : String)
  | valueError (msg : String)
  | invalidTypeError (expected : String) (argName : String)
  | inactiveRpcError (details : String)
  | runtimeError (msg : String)
deriving DecidableEq, Repr

/-- Input errors are the local, pre-network failures: Python `TypeError`
(including the library's `InvalidTypeError` subtype) and `ValueError`. -/
def PyError.isInputError : PyError → Bool
  | .typeError _ => true
  | .valueError _ => true
  | .invalidTypeError _ _ => true
  | _ => false

def PyError.isInactiveRpc : PyError → Bool
  | .inactiveRpcError _ => true
  | _ => false

/-- `Except.ok`-ness as a Bool, for stating raise-iff properties. -/
def exceptOk {ε α : Type} : Except ε α → Bool
  | .ok _ => true
  | .error _ => false

/-- Field natures, from `ansys.dpf.core.common.natures`
(`fields_factory.py` uses `scalar`, `vector`, `symmatrix`, `matrix`). -/
inductive Nature where
  | scalar
  | vector
  | symmatrix
  | matrix
deriving DecidableEq, Repr

/-- A numpy array after `np.asarray`: its dtype's numeric-ness, its shape,
and its data flattened in row-major order (`ravel` keeps the flat data and
collapses the shape, so only the shape changes under flattening). -/
structure NDArray where
  isNumeric : Bool
  shape : List Nat
  flat : List Int
deriving DecidableEq, Repr

/-- The local field built by `field_from_array`: nature, entity count, the
shape of the data finally assigned (`[n]` after a `ravel`), the flat data,
and the scoping ids assigned from `np.arange(1, n_entities + 1)`. -/
structure LocalField where
  nature : Nature
  nentities : Nat
  dataShape : List Nat
  flatData : List Int
  scoping_ids : List Nat
deriving DecidableEq, Repr

/-- The `shp_err` message of `field_from_array` (fields_factory.py:37). -/
def shapeErrMsg : String :=
  "Array must be either contain 1 dimension or 2 dimensions with three components."

/-- The sequential 1-based scoping ids `np.arange(1, n + 1)`. -/
def seqIds (n : Nat) : List Nat := (List.range n).map (fun k => k + 1)

/-- Shallow embedding of `fields_factory.field_from_array`
(fields_factory.py:17-60): reject non-numeric dtypes, then dispatch on the
rank: rank 1 is scalar; rank 2 with one column is ravelled to scalar; three
columns is vector; six is symmatrix; anything else raises `shp_err`. -/
def field_from_array (arr : NDArray) : Except PyError LocalField :=
  if !arr.isNumeric then
    .error (.typeError "Array must be a numeric type")
  else
    match arr.shape with
    | [n] => .ok ⟨.scalar, n, [n], arr.flat, seqIds n⟩
    | [n, c] =>
      if c = 1 then .ok ⟨.scalar, n, [n], arr.flat, seqIds n⟩
      else if c = 3 then .ok ⟨.vector, n, [n, 3], arr.flat, seqIds n⟩
      else if c = 6 then .ok ⟨.symmatrix, n, [n, 6], arr.flat, seqIds n⟩
      else .error (.valueError shapeErrMsg)
    | _ => .error (.valueError shapeErrMsg)

/-- The shapes `field_from_array` accepts: rank 1, or rank 2 with 1, 3 or 6
columns. -/
def validShape : List Nat → Bool
  | [_] => true
  | [_, c] => c = 1 || c = 3 || c = 6
  | _ => false

/-- The gRPC `FieldRequest` message assembled by `_create_field`
(fields_factory.py:275-352): the parts of the request the claims are about —
nature, location, reserved scoping size, reserved data size, and the optional
dimensionality descriptor (a list of per-entity component counts, from
`Dimensionality([...], nature)`). -/
structure FieldRequest where
  nature : Nature
  location : String
  scoping_size : Nat
  data_size : Nat
  dimensionality : Option (List Nat)
deriving DecidableEq, Repr

/-- Shallow embedding of `fields_factory._create_field`
(fields_factory.py:275-352), restricted to the request it issues (the remote
`stub.Create` call is the boundary).  `ncomp_n` / `ncomp_m` default to 0 in
the source; the nature dispatch gives `elem_data_size`, and the
dimensionality descriptor is `[ncomp_n, ncomp_m]` when both are nonzero,
`[ncomp_n]` when only `ncomp_m` is zero, and absent otherwise.  The final
`else` branch of the source (`elem_data_size = ncomp_n`) is unreachable for
the closed set of natures used by the factory functions. -/
def create_field_request (nature : Nature) (nentities : Nat) (location : String)
    (ncomp_n : Nat) (ncomp_m : Nat) : FieldRequest :=
  let elem_data_size :=
    match nature with
    | .vector => 3
    | .symmatrix => 6
    | .scalar => 1
    | .matrix => ncomp_n * ncomp_m
  let dimensionality :=
    if ncomp_n ≠ 0 ∧ ncomp_m ≠ 0 then some [ncomp_n, ncomp_m]
    else if ncomp_n ≠ 0 ∧ ncomp_m = 0 then some [ncomp_n]
    else none
  ⟨nature, location, nentities, nentities * elem_data_size, dimensionality⟩

/-- `fields_factory.create_scalar_field(num_entities, location)`
(fields_factory.py:186-221). -/
def create_scalar_field (num_entities : Nat) (location : String) : FieldRequest :=
  create_field_request .scalar num_entities location 0 0

/-- `fields_factory.create_3d_vector_field(num_entities, location)`
(fields_factory.py:110-145). -/
def create_3d_vector_field (num_entities : Nat) (location : String) : FieldRequest :=
  create_field_request .vector num_entities location 0 0

/-- `fields_factory.create_tensor_field(num_entities, location)`
(fields_factory.py:148-183). -/
def create_tensor_field (num_entities : Nat) (location : String) : FieldRequest :=
  create_field_request .symmatrix num_entities location 0 0

/-- `fields_factory.create_matrix_field(num_entities, num_lines, num_col,
location)` (fields_factory.py:63-107): note the argument swap — `num_col` is
passed as `ncomp_n` and `num_lines` as `ncomp_m`. -/
def create_matrix_field (num_entities : Nat) (num_lines : Nat) (num_col : Nat)
    (location : String) : FieldRequest :=
  create_field_request .matrix num_entities location num_col num_lines

/-- `fields_factory.create_vector_field(num_entities, num_comp, location)`
(fields_factory.py:224-264). -/
def create_vector_field (num_entities : Nat) (num_comp : Nat) (location : String) :
    FieldRequest :=
  create_field_request .vector num_entities location num_comp 0

/-- Whether a dimensionality descriptor is present and two-component. -/
def isTwoComponent : Option (List Nat) → Bool
  | some l => l.length = 2
  | none => false

/-- Python values flowing through `Result`'s selector state and
`Operator.inputs` connections: `none` is Python `None` (also the default of
`__call__`'s keyword arguments), integers, strings, lists of ids, `Scoping`
objects (ids plus a location tag), and the secondary split operator built by
`Result._add_split_on_property_type` (its connected `requested_location` and
`label1` inputs, whether the model's mesh provider was connected to its
`mesh` input, and the previously stored mesh scoping connected — inside a
`try`/`except` that swallows any failure — to its `mesh_scoping` input). -/
inductive PyVal where
  | none
  | pyInt (n : Int)
  | pyStr (s : String)
  | pyList (l : List Int)
  | scoping (ids : List Int) (location : String)
  | splitOp (requested_location : String) (label1 : String)
      (meshConnected : Bool) (prev : Option PyVal)

/-- Python truthiness, as tested by `if x:` in `Result.__call__` and
`Result._add_split_on_property_type`: `None`, `0`, the empty string and the
empty list are falsy; `Scoping` and `Operator` objects (which define neither
a custom `__bool__` nor `__len__`) are always truthy. -/
def truthy : PyVal → Bool
  | .none => false
  | .pyInt n => n ≠ 0
  | .pyStr s => s ≠ ""
  | .pyList l => !l.isEmpty
  | .scoping _ _ => true
  | .splitOp _ _ _ _ => true

/-- The `label1` input of a stored split operator, if the value is one. -/
def label1Of : PyVal → Option String
  | .splitOp _ l _ _ => some l
  | _ => Option.none

/-- The underlying result provider `Operator` as `Result` uses it: the three
inputs `Result.__call__` may connect (each `op.inputs.<pin>(v)` call replaces
the previous connection), plus a count of remote evaluations — bumped only
when an output is read, which `__call__` never does. -/
structure ResOperator where
  time_scoping : Option PyVal
  mesh_scoping : Option PyVal
  requested_location : Option PyVal
  evalCount : Nat

/-- `op.inputs.time_scoping(v)`: connect, replacing any prior connection. -/
def connect_time_scoping (op : ResOperator) (v : PyVal) : ResOperator :=
  { op with time_scoping := some v }

/-- `op.inputs.mesh_scoping(v)`: connect, replacing any prior connection. -/
def connect_mesh_scoping (op : ResOperator) (v : PyVal) : ResOperator :=
  { op with mesh_scoping := some v }

/-- `op.inputs.requested_location(v)`: connect, replacing any prior one. -/
def connect_requested_location (op : ResOperator) (v : PyVal) : ResOperator :=
  { op with requested_location := some v }

/-- The mutable state of a `Result` (results.py:192-224): the wrapped
operator and the selector fields `_time_scoping`, `_mesh_scoping`,
`_location` and `_specific_fc_type` (all initialized to `None`), together
with the model data the selectors read: `n_sets` is
`len(model.metadata.time_freq_support.time_frequencies)` and
`native_scoping_location` is `result_info.native_scoping_location`. -/
structure ResultState where
  operator : ResOperator
  time_scoping_state : PyVal
  mesh_scoping_state : PyVal
  location_state : PyVal
  specific_fc_type : Option String
  n_sets : Nat
  native_scoping_location : String

/-- Shallow embedding of `Result.__call__(time_scoping=None,
mesh_scoping=None)` (results.py:226-241): each selector is tested with `if`
(Python truthiness), call-time arguments before stored state, and the
(mutated) underlying operator is returned without any evaluation. -/
def result_call (r : ResultState) (time_scoping : PyVal) (mesh_scoping : PyVal) :
    ResOperator :=
  let op := r.operator
  let op :=
    if truthy time_scoping then connect_time_scoping op time_scoping
    else if truthy r.time_scoping_state then
      connect_time_scoping op r.time_scoping_state
    else op
  let op :=
    if truthy mesh_scoping then connect_mesh_scoping op mesh_scoping
    else if truthy r.mesh_scoping_state then
      connect_mesh_scoping op r.mesh_scoping_state
    else op
  if truthy r.location_state then connect_requested_location op r.location_state
  else op

/-- `Result.on_first_time_freq` (results.py:292-311): stores the literal 1. -/
def on_first_time_freq (r : ResultState) : ResultState :=
  { r with time_scoping_state := .pyInt 1 }

/-- `Result.on_last_time_freq` (results.py:313-334): stores
`len(model.metadata.time_freq_support.time_frequencies)`. -/
def on_last_time_freq (r : ResultState) : ResultState :=
  { r with time_scoping_state := .pyInt r.n_sets }

/-- `Result._add_split_on_property_type(prop)` (results.py:454-475): builds a
fresh `scoping::by_property` split operator, connects the result's native
scoping location, the model's mesh provider and `prop` as `label1`, then — if
the previously stored mesh scoping is truthy — connects it to the new
operator's `mesh_scoping` input inside a `try`/`except pass`, and stores the
new operator as `_mesh_scoping`. -/
def add_split_on_property_type (prop : String) (r : ResultState) : ResultState :=
  let previous := r.mesh_scoping_state
  let newOp := PyVal.splitOp r.native_scoping_location prop true
    (if truthy previous then some previous else Option.none)
  { r with mesh_scoping_state := newOp }

/-- `Result.split_by_body` (results.py:402-425): sets `_specific_fc_type` to
"body" and splits on the property key "mat". -/
def split_by_body (r : ResultState) : ResultState :=
  add_split_on_property_type "mat" { r with specific_fc_type := some "body" }

/-- `Result.split_by_shape` (results.py:427-452): sets `_specific_fc_type` to
"shape" and splits on the property key "elshape". -/
def split_by_shape (r : ResultState) : ResultState :=
  add_split_on_property_type "elshape" { r with specific_fc_type := some "shape" }

/-- A `DataSources` handle: the result paths it was built from
(`DataSources(path)` holds one path, the no-argument form none).  Modelled
from the spec: the `DataSources` class itself is not under `src/`; the spec
describes it as a reference to one or more result files to be read. -/
structure DataSources where
  result_paths : List String
deriving DecidableEq, Repr

/-- The argument of `Metadata._set_data_sources`: an existing `DataSources`,
a path string, or anything else (in the source, any non-`DataSources`
non-string value, e.g. the default `None`). -/
inductive DataSourcesInput where
  | dataSources (d : DataSources)
  | path (s : String)
  | nothing
deriving DecidableEq, Repr

/-- The isinstance dispatch of `Metadata._set_data_sources`
(model.py:348-354): keep a `DataSources` as is, wrap a string into a new
`DataSources`, otherwise build an empty `DataSources`. -/
def resolve_data_sources : DataSourcesInput → DataSources
  | .dataSources d => d
  | .path s => ⟨[s]⟩
  | .nothing => ⟨[]⟩

/-- A stream provider operator, tracking the data source its `data_sources`
input was connected to (model.py:240-252). -/
structure StreamProvider where
  source : DataSources
deriving DecidableEq, Repr

/-- A `ResultInfo`, tracking the data source it was loaded from: the
`ResultInfoProvider` operator reads through the stream provider, so the info
reflects whatever source that provider wraps (model.py:357-369). -/
structure MResultInfo where
  source : DataSources
deriving DecidableEq, Repr

/-- The attribute state of `Metadata` (model.py:214-234): the owned data
sources, the cached stream provider, result info, meshed region and
time/frequency support (`none` models the Python `None`). -/
structure MetadataState where
  data_sources : DataSources
  stream_provider : Option StreamProvider
  result_info : Option MResultInfo
  meshed_region : Option DataSources
  time_freq_support : Option DataSources
deriving DecidableEq, Repr

/-- `Metadata._cache_streams_provider` (model.py:240-252): rebuild the stream
provider from the current `_data_sources`. -/
def cache_streams_provider (m : MetadataState) : MetadataState :=
  { m with stream_provider := some ⟨m.data_sources⟩ }

/-- `Metadata._set_data_sources(var_inp)` (model.py:348-355): resolve the
input to a `DataSources`, store it, then re-derive the stream provider.
Nothing else is touched: in particular `result_info` keeps its old value. -/
def set_data_sources (v : DataSourcesInput) (m : MetadataState) : MetadataState :=
  cache_streams_provider { m with data_sources := resolve_data_sources v }

/-- `Metadata._cache_result_info` (model.py:236-238), success path of
`_load_result_info`: the `ResultInfoProvider` is connected to the stream
provider's outputs, so the cached info reflects the provider's source. -/
def cache_result_info (m : MetadataState) : MetadataState :=
  { m with result_info := m.stream_provider.map (fun sp => (⟨sp.source⟩ : MResultInfo)) }

/-- `Metadata.__init__(data_sources, server)` (model.py:226-234), in source
order: `_set_data_sources` (which already caches a stream provider), then the
attribute resets (`_meshed_region`, `result_info`, `_stream_provider`,
`_time_freq_support` all set to `None`), then `_cache_streams_provider()` and
`_cache_result_info()`. -/
def metadata_init (v : DataSourcesInput) : MetadataState :=
  let m := set_data_sources v ⟨⟨[]⟩, Option.none, Option.none, Option.none, Option.none⟩
  let m := { m with
    meshed_region := Option.none
    result_info := Option.none
    stream_provider := Option.none
    time_freq_support := Option.none }
  let m := cache_streams_provider m
  cache_result_info m

/-- Substring occurrence on character lists (the Python `in` test on
strings). -/
def hasSub (sub : List Char) (l : List Char) : Bool :=
  match l with
  | [] => sub.isEmpty
  | c :: t => sub.isPrefixOf (c :: t) || hasSub sub t

/-- `sub in s` for Python strings. -/
def strContainsSub (s sub : String) : Bool :=
  hasSub sub.toList s.toList

/-- The diagnostic substring `Metadata._load_result_info` recognizes
(model.py:365). -/
def resultsFileDiagnostic : String := "results file is not defined in the Data sources"

/-- Shallow embedding of the error handling of `Metadata._load_result_info`
(model.py:357-369): the remote read either yields a result info or raises; an
`_InactiveRpcError` whose `details()` contain the recognized diagnostic is
re-raised as `RuntimeError("Unable to open result file")`, every other
outcome (success, an `_InactiveRpcError` with any other diagnostic, or any
other exception, which the `except` clause does not catch) passes through
unchanged. -/
def load_result_info (remote : Except PyError MResultInfo) : Except PyError MResultInfo :=
  match remote with
  | .ok r => .ok r
  | .error (.inactiveRpcError details) =>
    if strContainsSub details resultsFileDiagnostic then
      .error (.runtimeError "Unable to open result file")
    else
      .error (.inactiveRpcError details)
  | .error e => .error e

/-- A Python argument to the mesh scoping factories: a list of ids, or one of
the non-list values the claim mentions (a tuple, a single int, a string). -/
inductive PyArg where
  | list (ids : List Int)
  | tuple (ids : List Int)
  | int (n : Int)
  | str (s : String)
deriving DecidableEq, Repr

/-- The `isinstance(x, list)` test of the mesh scoping factories. -/
def PyArg.isList : PyArg → Bool
  | .list _ => true
  | _ => false

/-- A `Scoping` as the factories build it: ids in order plus a location tag.
Modelled from the spec: the `Scoping` class is not under `src/`; the spec
describes it as an ordered set of entity ids plus a location tag.  The
location strings "Nodal" / "Elemental" are the values of `locations.nodal` /
`locations.elemental` documented in `fields_factory.py`. -/
structure ScopingVal where
  ids : List Int
  location : String
deriving DecidableEq, Repr

/-- `mesh_scoping_factory.nodal_scoping(node_ids)`
(mesh_scoping_factory.py:13-32): raise `InvalidTypeError("list", "node_ids")`
on any non-list argument, else build a nodal `Scoping` with the given ids. -/
def nodal_scoping (node_ids : PyArg) : Except PyError ScopingVal :=
  match node_ids with
  | .list ids => .ok ⟨ids, "Nodal"⟩
  | _ => .error (.invalidTypeError "list" "node_ids")

/-- `mesh_scoping_factory.elemental_scoping(element_ids)`
(mesh_scoping_factory.py:35-54): raise `InvalidTypeError("list",
"element_ids")` on any non-list argument, else build an elemental `Scoping`
with the given ids. -/
def elemental_scoping (element_ids : PyArg) : Except PyError ScopingVal :=
  match element_ids with
  | .list ids => .ok ⟨ids, "Elemental"⟩
  | _ => .error (.invalidTypeError "list" "element_ids")

/-- A concrete sample `Result` state (fresh operator, no selector state,
a 20-set time/frequency support, nodal native location), for witnesses. -/
def sampleResult : ResultState :=
  ⟨⟨Option.none, Option.none, Option.none, 0⟩, .none, .none, .none,
    Option.none, 20, "Nodal"⟩

end Dpf

namespace Dpf

theorem seqIds_length (n : Nat) : (seqIds n).length = n := by
  simp [seqIds]

theorem seqIds_get (n i : Nat) (h : i < n) : (seqIds n)[i]? = some (i + 1) := by
  simp [seqIds, List.getElem?_map, List.getElem?_range h]

theorem truthy_none : truthy PyVal.none = false := rfl

/-- C6: for every numeric array that is rank-1, or rank-2 with exactly 1, 3
or 6 columns, `field_from_array` returns a field whose scoping ids are
exactly `1, 2, ..., len(A)` in order, whose nature is scalar (rank-1 or one
column, the one-column case flattened to rank-1), vector (3 columns) or
symmatrix (6 columns), and whose data equals the input array. -/
theorem field_from_array_valid (arr : NDArray) (n : Nat)
    (hnum : arr.isNumeric = true) :
    (arr.shape = [n] → ∃ f, field_from_array arr = .ok f ∧
      f.nature = .scalar ∧ f.dataShape = [n] ∧ f.flatData = arr.flat ∧
      f.nentities = n ∧ f.scoping_ids.length = n ∧
      ∀ i, i < n → f.scoping_ids[i]? = some (i + 1)) ∧
    (arr.shape = [n, 1] → ∃ f, field_from_array arr = .ok f ∧
      f.nature = .scalar ∧ f.dataShape = [n] ∧ f.flatData = arr.flat ∧
      f.nentities = n ∧ f.scoping_ids.length = n ∧
      ∀ i, i < n → f.scoping_ids[i]? = some (i + 1)) ∧
    (arr.shape = [n, 3] → ∃ f, field_from_array arr = .ok f ∧
      f.nature = .vector ∧ f.dataShape = [n, 3] ∧ f.flatData = arr.flat ∧
      f.nentities = n ∧ f.scoping_ids.length = n ∧
      ∀ i, i < n → f.scoping_ids[i]? = some (i + 1)) ∧
    (arr.shape = [n, 6] → ∃ f, field_from_array arr = .ok f ∧
      f.nature = .symmatrix ∧ f.dataShape = [n, 6] ∧ f.flatData = arr.flat ∧
      f.nentities = n ∧ f.scoping_ids.length = n ∧
      ∀ i, i < n → f.scoping_ids[i]? = some (i + 1)) := by
  refine
    ⟨fun h => ⟨⟨.scalar, n, [n], arr.flat, seqIds n⟩,
        by simp [field_from_array, hnum, h], rfl, rfl, rfl, rfl,
        seqIds_length n, fun i hi => seqIds_get n i hi⟩,
      fun h => ⟨⟨.scalar, n, [n], arr.flat, seqIds n⟩,
        by simp [field_from_array, hnum, h], rfl, rfl, rfl, rfl,
        seqIds_length n, fun i hi => seqIds_get n i hi⟩,
      fun h => ⟨⟨.vector, n, [n, 3], arr.flat, seqIds n⟩,
        by simp [field_from_array, hnum, h], rfl, rfl, rfl, rfl,
        seqIds_length n, fun i hi => seqIds_get n i hi⟩,
      fun h => ⟨⟨.symmatrix, n, [n, 6], arr.flat, seqIds n⟩,
        by simp [field_from_array, hnum, h], rfl, rfl, rfl, rfl,
        seqIds_length n, fun i hi => seqIds_get n i hi⟩⟩

/-- Witness for C6 at the concrete 2×3 array `[[1,2,3],[4,5,6]]`. -/
theorem field_from_array_valid_witness :
    ∃ f, field_from_array ⟨true, [2, 3], [1, 2, 3, 4, 5, 6]⟩ = .ok f ∧
      f.nature = .vector ∧ f.dataShape = [2, 3] ∧ f.flatData = [1, 2, 3, 4, 5, 6] ∧
      f.nentities = 2 ∧ f.scoping_ids.length = 2 ∧
      ∀ i, i < 2 → f.scoping_ids[i]? = some (i + 1) :=
  (field_from_array_valid ⟨true, [2, 3], [1, 2, 3, 4, 5, 6]⟩ 2 rfl).2.2.1 rfl

/-- C7: for every array that is non-numeric, of rank other than 1 or 2, or
rank-2 with a column count not in {1, 3, 6}, `field_from_array` raises an
input error (a type or value error).  The `Except.error` return models the
exception being raised before any `Field` is constructed, so no remote field
allocation happens. -/
theorem field_from_array_invalid (arr : NDArray)
    (hbad : arr.isNumeric = false ∨ validShape arr.shape = false) :
    ∃ e, field_from_array arr = .error e ∧ e.isInputError = true := by
  obtain ⟨num, shape, flat⟩ := arr
  cases num with
  | false =>
    exact ⟨.typeError "Array must be a numeric type", by simp [field_from_array], rfl⟩
  | true =>
    have h2 : validShape shape = false := by
      rcases hbad with h | h
      · simp at h
      · exact h
    rcases shape with _ | ⟨n, _ | ⟨c, _ | ⟨d, t⟩⟩⟩
    · exact ⟨.valueError shapeErrMsg, by simp [field_from_array], rfl⟩
    · simp [validShape] at h2
    · have hc : (¬(c = 1) ∧ ¬(c = 3)) ∧ ¬(c = 6) := by simpa [validShape] using h2
      exact ⟨.valueError shapeErrMsg,
        by simp [field_from_array, hc.1.1, hc.1.2, hc.2], rfl⟩
    · exact ⟨.valueError shapeErrMsg, by simp [field_from_array], rfl⟩

/-- Witness for C7 at the concrete numeric 2×4 array of zeros. -/
theorem field_from_array_invalid_witness :
    ∃ e, field_from_array ⟨true, [2, 4], [0, 0, 0, 0, 0, 0, 0, 0]⟩ = .error e ∧
      e.isInputError = true :=
  field_from_array_invalid ⟨true, [2, 4], [0, 0, 0, 0, 0, 0, 0, 0]⟩ (Or.inr (by decide))

/-- C8 counterexample: `create_matrix_field(1, 0, 2)` (zero rows) carries a
one-component dimensionality descriptor `[2]`, not the two-component
descriptor the claim asserts, because `ncomp_m = num_lines = 0` selects the
`Dimensionality([ncomp_n], nature)` branch of `_create_field`. -/
theorem create_matrix_field_zero_rows_counterexample :
    (create_matrix_field 1 0 2 "Nodal").dimensionality = some [2] ∧
    isTwoComponent (create_matrix_field 1 0 2 "Nodal").dimensionality = false ∧
    (create_matrix_field 1 0 2 "Nodal").data_size = 0 := by
  decide

/-- C8 (amended): for all `num_entities` and `location`, the request issued
by `create_scalar_field` carries `elem_data_size` 1 (`data_size =
num_entities * 1`), `create_3d_vector_field` carries 3, `create_tensor_field`
carries 6, and — provided `rows` and `cols` are both nonzero —
`create_matrix_field(n, rows, cols)` carries `elem_data_size = rows * cols`
with a two-component dimensionality descriptor; the requested scoping size
always equals `num_entities`. -/
theorem create_field_requests_spec (num_entities rows cols : Nat) (location : String)
    (hr : rows ≠ 0) (hc : cols ≠ 0) :
    (create_scalar_field num_entities location).data_size = num_entities * 1 ∧
    (create_scalar_field num_entities location).scoping_size = num_entities ∧
    (create_3d_vector_field num_entities location).data_size = num_entities * 3 ∧
    (create_3d_vector_field num_entities location).scoping_size = num_entities ∧
    (create_tensor_field num_entities location).data_size = num_entities * 6 ∧
    (create_tensor_field num_entities location).scoping_size = num_entities ∧
    (create_matrix_field num_entities rows cols location).data_size
      = num_entities * (rows * cols) ∧
    (create_matrix_field num_entities rows cols location).scoping_size
      = num_entities ∧
    isTwoComponent (create_matrix_field num_entities rows cols location).dimensionality
      = true := by
  refine ⟨rfl, rfl, rfl, rfl, rfl, rfl, ?_, rfl, ?_⟩
  · simp [create_matrix_field, create_field_request, Nat.mul_comm]
  · simp [create_matrix_field, create_field_request, isTwoComponent, hr, hc]

/-- C1 counterexample: with stored `_time_scoping = 5`, calling the result
with the call-time argument `time_scoping = 0` — provided, and distinct from
the absent default `None` — connects the stored 5, not the provided 0,
because `__call__` tests the argument for truthiness. -/
theorem result_call_override_counterexample :
    (result_call { sampleResult with time_scoping_state := .pyInt 5 }
        (.pyInt 0) .none).time_scoping = some (.pyInt 5) ∧
    PyVal.pyInt 0 ≠ PyVal.none ∧
    some (PyVal.pyInt 5) ≠ some (PyVal.pyInt 0) := by
  refine ⟨rfl, by simp, by simp⟩

/-- C1 (amended): for every `Result`, `__call__(time_scoping, mesh_scoping)`
connects a call-time argument to the underlying operator's corresponding
input when it is provided and truthy, falls back to the stored
`_time_scoping` / `_mesh_scoping` when the call-time argument is absent or
falsy (and the stored value is truthy), leaves the pin as it was when both
are falsy, also connects `_location` as `requested_location` when it is set
(truthy), and returns the live underlying operator without triggering any
evaluation. -/
theorem result_call_spec (r : ResultState) (t m : PyVal) :
    (truthy t = true → (result_call r t m).time_scoping = some t) ∧
    (truthy t = false → truthy r.time_scoping_state = true →
      (result_call r t m).time_scoping = some r.time_scoping_state) ∧
    (truthy t = false → truthy r.time_scoping_state = false →
      (result_call r t m).time_scoping = r.operator.time_scoping) ∧
    (truthy m = true → (result_call r t m).mesh_scoping = some m) ∧
    (truthy m = false → truthy r.mesh_scoping_state = true →
      (result_call r t m).mesh_scoping = some r.mesh_scoping_state) ∧
    (truthy m = false → truthy r.mesh_scoping_state = false →
      (result_call r t m).mesh_scoping = r.operator.mesh_scoping) ∧
    (truthy r.location_state = true →
      (result_call r t m).requested_location = some r.location_state) ∧
    (truthy r.location_state = false →
      (result_call r t m).requested_location = r.operator.requested_location) ∧
    (result_call r t m).evalCount = r.operator.evalCount := by
  cases ht : truthy t <;> cases hts : truthy r.time_scoping_state <;>
    cases hm : truthy m <;> cases hms : truthy r.mesh_scoping_state <;>
    cases hl : truthy r.location_state <;>
    simp [result_call, ht, hts, hm, hms, hl,
      connect_time_scoping, connect_mesh_scoping, connect_requested_location]

/-- Witness for C1 (amended): a truthy call-time argument is connected. -/
theorem result_call_spec_witness :
    (result_call sampleResult (.pyInt 2) (.pyList [3])).time_scoping
      = some (.pyInt 2) :=
  (result_call_spec sampleResult (.pyInt 2) (.pyList [3])).1 (by decide)

/-- C10: calling a `Result` with falsy override values (0, an empty list, or
`None`) behaves exactly as if no override were passed — the stored
`_time_scoping` / `_mesh_scoping` is connected instead of the override —
because the call-time arguments are tested for truthiness rather than for
being distinct from `None`. -/
theorem result_call_falsy_is_noop (r : ResultState) (t m : PyVal)
    (ht : truthy t = false) (hm : truthy m = false) :
    result_call r t m = result_call r .none .none ∧
    (truthy r.time_scoping_state = true →
      (result_call r t m).time_scoping = some r.time_scoping_state) ∧
    (truthy r.mesh_scoping_state = true →
      (result_call r t m).mesh_scoping = some r.mesh_scoping_state) := by
  cases hts : truthy r.time_scoping_state <;> cases hms : truthy r.mesh_scoping_state <;>
    cases hl : truthy r.location_state <;>
    simp [result_call, ht, hm, hts, hms, hl, truthy_none,
      connect_time_scoping, connect_mesh_scoping, connect_requested_location]

/-- Witness for C10 at the falsy overrides `0` and `[]` with stored state. -/
theorem result_call_falsy_is_noop_witness :
    result_call { sampleResult with time_scoping_state := .pyInt 7 }
        (.pyInt 0) (.pyList []) =
      result_call { sampleResult with time_scoping_state := .pyInt 7 } .none .none ∧
    (truthy (ResultState.time_scoping_state
        { sampleResult with time_scoping_state := .pyInt 7 }) = true →
      (result_call { sampleResult with time_scoping_state := .pyInt 7 }
        (.pyInt 0) (.pyList [])).time_scoping = some (.pyInt 7)) ∧
    (truthy (ResultState.mesh_scoping_state
        { sampleResult with time_scoping_state := .pyInt 7 }) = true →
      (result_call { sampleResult with time_scoping_state := .pyInt 7 }
        (.pyInt 0) (.pyList [])).mesh_scoping
        = some (ResultState.mesh_scoping_state
            { sampleResult with time_scoping_state := .pyInt 7 })) :=
  result_call_falsy_is_noop { sampleResult with time_scoping_state := .pyInt 7 }
    (.pyInt 0) (.pyList []) (by decide) (by decide)

/-- C2: on a `Result` bound to a model whose time/frequency support has
`n_sets` entries, `on_first_time_freq` (which stores 1) followed by
`on_last_time_freq` leaves `_time_scoping` equal to `n_sets`, not 1 (when
`n_sets ≠ 1`) and not a combination: the composite equals applying
`on_last_time_freq` alone — each selector overwrites the stored value. -/
theorem on_first_then_last_time_freq (r : ResultState) :
    on_last_time_freq (on_first_time_freq r) = on_last_time_freq r ∧
    (on_first_time_freq r).time_scoping_state = .pyInt 1 ∧
    (on_last_time_freq (on_first_time_freq r)).time_scoping_state
      = .pyInt (r.n_sets : Int) ∧
    ((r.n_sets : Int) ≠ 1 →
      (on_last_time_freq (on_first_time_freq r)).time_scoping_state
        ≠ .pyInt 1) := by
  refine ⟨rfl, rfl, rfl, fun h hcontra => ?_⟩
  injection hcontra with h1
  exact h h1

/-- Witness for C2 at a `Result` whose support has 20 sets. -/
theorem on_first_then_last_time_freq_witness :
    (on_last_time_freq (on_first_time_freq sampleResult)).time_scoping_state
      = .pyInt (20 : Int) ∧
    (on_last_time_freq (on_first_time_freq sampleResult)).time_scoping_state
      ≠ .pyInt 1 :=
  ⟨(on_first_then_last_time_freq sampleResult).2.2.1,
   (on_first_then_last_time_freq sampleResult).2.2.2 (by decide)⟩

/-- C4: calling `split_by_body` (property key "mat", `_specific_fc_type`
"body") followed by `split_by_shape` (property key "elshape",
`_specific_fc_type` "shape") raises no error (both embeddings are total: the
only fallible step, reconnecting the previous mesh scoping, is wrapped in
`try`/`except pass` in the source), and afterwards the second call's property
key has silently replaced the first's: `_specific_fc_type` is "shape" and the
split operator stored in `_mesh_scoping` has "elshape" as its `label1` input
— the "mat" operator survives only as the nested `mesh_scoping` input of the
new split operator. -/
theorem split_by_body_then_shape (r : ResultState) :
    (split_by_shape (split_by_body r)).specific_fc_type = some "shape" ∧
    label1Of (split_by_shape (split_by_body r)).mesh_scoping_state
      = some "elshape" ∧
    label1Of (split_by_body r).mesh_scoping_state = some "mat" ∧
    (split_by_shape (split_by_body r)).mesh_scoping_state
      = PyVal.splitOp r.native_scoping_location "elshape" true
          (some (PyVal.splitOp r.native_scoping_location "mat" true
            (if truthy r.mesh_scoping_state then some r.mesh_scoping_state
             else Option.none))) :=
  ⟨rfl, rfl, rfl, rfl⟩

/-- C3 counterexample: a `Metadata` initialized on "fileA" whose data source
is then replaced via `_set_data_sources("fileB")` gets a stream provider
re-derived from "fileB", but keeps the `result_info` loaded from "fileA" —
`_set_data_sources` never recomputes `result_info`. -/
theorem set_data_sources_counterexample :
    (set_data_sources (.path "fileB") (metadata_init (.path "fileA"))).stream_provider
      = some ⟨⟨["fileB"]⟩⟩ ∧
    (set_data_sources (.path "fileB") (metadata_init (.path "fileA"))).result_info
      = some ⟨⟨["fileA"]⟩⟩ ∧
    (set_data_sources (.path "fileB") (metadata_init (.path "fileA"))).result_info
      ≠ some ⟨⟨["fileB"]⟩⟩ := by
  refine ⟨rfl, rfl, by decide⟩

/-- C3 (amended): whenever the underlying data source of a `Metadata` is
replaced via `_set_data_sources` (a path string wrapped into a new
`DataSources`, an existing `DataSources`, or nothing yielding an empty one),
the stream provider is recomputed from the new data source, but `result_info`
(like `_meshed_region` and `_time_freq_support`) is left unchanged;
`result_info` is recomputed only during `Metadata.__init__`, which calls
`_cache_result_info` after `_set_data_sources`. -/
theorem set_data_sources_spec (v : DataSourcesInput) (m : MetadataState) :
    (set_data_sources v m).data_sources = resolve_data_sources v ∧
    (set_data_sources v m).stream_provider = some ⟨resolve_data_sources v⟩ ∧
    (set_data_sources v m).result_info = m.result_info ∧
    (set_data_sources v m).meshed_region = m.meshed_region ∧
    (set_data_sources v m).time_freq_support = m.time_freq_support ∧
    (metadata_init v).stream_provider = some ⟨resolve_data_sources v⟩ ∧
    (metadata_init v).result_info = some ⟨resolve_data_sources v⟩ :=
  ⟨rfl, rfl, rfl, rfl, rfl, rfl, rfl⟩

/-- C5: when loading `result_info`, a remote evaluation failure
(`_InactiveRpcError`) whose diagnostic contains "results file is not defined
in the Data sources" is re-raised as `RuntimeError("Unable to open result
file")`, and every other outcome — success, an `_InactiveRpcError` with a
different diagnostic, or a failure of any other class — is propagated to the
caller unchanged. -/
theorem load_result_info_spec (details : String) (e : PyError) (info : MResultInfo) :
    (strContainsSub details resultsFileDiagnostic = true →
      load_result_info (.error (.inactiveRpcError details))
        = .error (.runtimeError "Unable to open result file")) ∧
    (strContainsSub details resultsFileDiagnostic = false →
      load_result_info (.error (.inactiveRpcError details))
        = .error (.inactiveRpcError details)) ∧
    (e.isInactiveRpc = false → load_result_info (.error e) = .error e) ∧
    load_result_info (.ok info) = .ok info := by
  refine ⟨fun h => ?_, fun h => ?_, fun h => ?_, rfl⟩
  · simp [load_result_info, h]
  · simp [load_result_info, h]
  · cases e <;> simp_all [load_result_info, PyError.isInactiveRpc]

/-- Witness for C5 at concrete diagnostics: a recognized diagnostic, an
unrecognized one, and a non-RPC error. -/
theorem load_result_info_spec_witness :
    load_result_info (.error (.inactiveRpcError
        "The results file is not defined in the Data sources."))
      = .error (.runtimeError "Unable to open result file") ∧
    load_result_info (.error (.inactiveRpcError "server unreachable"))
      = .error (.inactiveRpcError "server unreachable") ∧
    load_result_info (.error (.runtimeError "boom"))
      = .error (.runtimeError "boom") :=
  ⟨(load_result_info_spec "The results file is not defined in the Data sources."
      (.runtimeError "boom") ⟨⟨[]⟩⟩).1 (by decide),
   (load_result_info_spec "server unreachable" (.runtimeError "boom") ⟨⟨[]⟩⟩).2.1
      (by decide),
   (load_result_info_spec "x" (.runtimeError "boom") ⟨⟨[]⟩⟩).2.2.1 (by decide)⟩

/-- C9: `nodal_scoping(x)` and `elemental_scoping(x)` raise
`InvalidTypeError` (a type error) exactly when `x` is not a list (for
example a tuple or a single int); on a list of ids they return a `Scoping`
whose ids equal the input list in order, at the nodal and elemental location
respectively. -/
theorem scoping_factories_spec (x : PyArg) (ids : List Int) :
    nodal_scoping (.list ids) = .ok ⟨ids, "Nodal"⟩ ∧
    elemental_scoping (.list ids) = .ok ⟨ids, "Elemental"⟩ ∧
    (x.isList = false →
      nodal_scoping x = .error (.invalidTypeError "list" "node_ids")) ∧
    (x.isList = false →
      elemental_scoping x = .error (.invalidTypeError "list" "element_ids")) ∧
    exceptOk (nodal_scoping x) = x.isList ∧
    exceptOk (elemental_scoping x) = x.isList := by
  refine ⟨rfl, rfl, fun h => ?_, fun h => ?_, ?_, ?_⟩ <;>
    cases x <;> simp_all [nodal_scoping, elemental_scoping, PyArg.isList, exceptOk]

/-- Witness for C9 at a list, a tuple and a single int. -/
theorem scoping_factories_spec_witness :
    nodal_scoping (.list [1, 2, 3]) = .ok ⟨[1, 2, 3], "Nodal"⟩ ∧
    nodal_scoping (.tuple [1, 2, 3])
      = .error (.invalidTypeError "list" "node_ids") ∧
    elemental_scoping (.int 7)
      = .error (.invalidTypeError "list" "element_ids") :=
  ⟨(scoping_factories_spec (.tuple [1, 2, 3]) [1, 2, 3]).1,
   (scoping_factories_spec (.tuple [1, 2, 3]) [1, 2, 3]).2.2.1 (by decide),
   (scoping_factories_spec (.int 7) []).2.2.2.1 (by decide)⟩

/-- Witness for C8 (amended) at `num_entities = 4`, `rows = 5`, `cols = 2`. -/
theorem create_field_requests_spec_witness :
    (create_scalar_field 4 "Nodal").data_size = 4 * 1 ∧
    (create_scalar_field 4 "Nodal").scoping_size = 4 ∧
    (create_3d_vector_field 4 "Nodal").data_size = 4 * 3 ∧
    (create_3d_vector_field 4 "Nodal").scoping_size = 4 ∧
    (create_tensor_field 4 "Nodal").data_size = 4 * 6 ∧
    (create_tensor_field 4 "Nodal").scoping_size = 4 ∧
    (create_matrix_field 4 5 2 "Nodal").data_size = 4 * (5 * 2) ∧
    (create_matrix_field 4 5 2 "Nodal").scoping_size = 4 ∧
    isTwoComponent (create_matrix_field 4 5 2 "Nodal").dimensionality = true :=
  create_field_requests_spec 4 5 2 "Nodal" (by decide) (by decide)

end Dpf
